import Mathlib

/-!
Shallow embedding of the TruthLens frontend (src/frontend/js/api.js,
src/frontend/js/ui.js, src/frontend/config.js) and proofs about its
request lifecycle, validation, state machine and result rendering.

Conventions of the embedding:
* JS numbers that only flow through to the display are kept as `Rat`
  (the code never does arithmetic on them other than formatting).
* The DOM is a record `Dom` holding exactly the element state the code
  reads and writes; `hidden`-class membership becomes a `Bool` per section.
* `setInterval` / `setTimeout` are modelled by a pool `runningTimers` of
  tagged timer ids allocated from a counter `nextTimerId`; browser timer
  ids are positive, which the counter-based allocation reproduces.
* `async`/`await` with `try`/`catch`/`finally` is modelled by explicit
  sequencing; the outcome of the single `fetch` is an oracle argument
  (`FetchResult`), and the possibility that rendering the outcome throws
  unexpectedly is an oracle flag `renderThrows`.
-/

/-- One entry of `word_highlights` in the backend response (spec section 3). -/
structure WordHighlight where
  word : String
  importance : Rat
  direction : String
deriving Repr, DecidableEq

/-- The successful backend response body, `AnalysisResult` (spec section 3).
A missing `word_highlights` field is the empty list (the code reads
`data.word_highlights || []`). -/
structure AnalysisResult where
  prediction : String
  confidence : Rat
  fake_probability : Rat
  real_probability : Rat
  explanation : String
  word_highlights : List WordHighlight
  processing_time_ms : Int
  request_id : String
  timestamp : String
deriving Repr, DecidableEq

/-- What `response.json()` yields for a non-ok response, as far as
`makeRequest` reads it: the `.error` member (`none` when absent), and the
whole body reinterpreted as an `AnalysisResult` for the ok path. -/
structure ResponseBody where
  errorField : Option String
  data : AnalysisResult
deriving Repr, DecidableEq

deriving instance DecidableEq for Except

/-- How the single `fetch` call inside `makeRequest` settles:
rejected with an `AbortError` (the timeout fired and the
`AbortController` aborted it), rejected with some other network error, or
resolved with a response carrying `ok`, `status`, and the result of
`await response.json()` (`Except.error m` when parsing the body throws
with message `m`). -/
inductive FetchResult
  | abortError
  | networkError (msg : String)
  | httpResponse (ok : Bool) (status : Nat) (body : Except String ResponseBody)
deriving Repr, DecidableEq

/-- Browser-side resolution of `fetch` raced against
`setTimeout(() => controller.abort(), this.timeout)` (api.js lines 16-17):
when the response would arrive at no time at all, or only strictly after
the timeout, the abort fires first and `fetch` rejects with an
`AbortError`; otherwise the response goes through. -/
def resolveFetch (timeout : Nat) (arrivesAt : Option Nat) (ok : Bool) (status : Nat)
    (body : Except String ResponseBody) : FetchResult :=
  match arrivesAt with
  | none => .abortError
  | some t => if timeout < t then .abortError else .httpResponse ok status body

/-- JS truthiness of `errorData.error` in `makeRequest`: a present,
non-empty string is truthy; an absent field or the empty string is falsy. -/
def jsTruthy : Option String → Bool
  | some s => s ≠ ""
  | none => false

/-- `TruthLensAPI.makeRequest` (api.js lines 15-45), as a function of how
the `fetch` settles.  `Except.error m` models the function throwing an
`Error` whose `.message` is `m`; `Except.ok d` models returning the parsed
body.  The catch block turns an `AbortError` into the timeout message and
rethrows every other exception (including a body-parse failure). -/
def makeRequest (fetch : FetchResult) : Except String AnalysisResult :=
  match fetch with
  | .abortError =>
      .error "Request timed out. The analysis is taking longer than expected."
  | .networkError msg => .error msg
  | .httpResponse ok status body =>
      if ok then
        match body with
        | .ok b => .ok b.data
        | .error m => .error m
      else
        match body with
        | .ok b =>
            if jsTruthy b.errorField then .error (b.errorField.getD "")
            else .error ("HTTP error! status: " ++ toString status)
        | .error m => .error m

/-- `RequestOutcome` (spec section 3): what `detectFakeNews` resolves with. -/
inductive RequestOutcome
  | success (data : AnalysisResult)
  | failure (error : String)
deriving Repr, DecidableEq

/-- `TruthLensAPI.detectFakeNews` (api.js lines 70-99): issues the POST via
`makeRequest` and wraps the result; any thrown error is caught and
reported as `failure` with the error's message.  `title`/`text` only form
the request body. -/
def detectFakeNews (_title _text : String) (fetch : FetchResult) : RequestOutcome :=
  match makeRequest fetch with
  | .ok d => .success d
  | .error m => .failure m

/-- Which kind of browser timer a running timer is: the 30-second loading
message-rotation `setInterval` (ui.js lines 30-33), the typing-effect
`setInterval` (ui.js line 131), or the 100 ms bar-animation `setTimeout`
(ui.js line 114). -/
inductive TimerKind
  | rotation
  | typing
  | barDelay
deriving Repr, DecidableEq

/-- A running browser timer: its id and its kind. -/
structure Timer where
  id : Nat
  kind : TimerKind
deriving Repr, DecidableEq

/-- A child of the highlights grid: either the single "No word highlights
available" paragraph, or one rendered `.highlight-item` element with its
word span content, its direction class, its importance score, and its
current `style.display` value. -/
inductive GridChild
  | noHighlightsMsg
  | item (word : String) (direction : String) (importance : Rat) (display : String)
deriving Repr, DecidableEq

/-- The word stored in a rendered highlight item, when it is one. -/
def GridChild.wordOf : GridChild → Option String
  | .noHighlightsMsg => none
  | .item w _ _ _ => some w

/-- The direction class of a rendered highlight item, when it is one. -/
def GridChild.directionOf : GridChild → Option String
  | .noHighlightsMsg => none
  | .item _ d _ _ => some d

/-- The `style.display` of a rendered highlight item, when it is one. -/
def GridChild.displayOf : GridChild → Option String
  | .noHighlightsMsg => none
  | .item _ _ _ disp => some disp

/-- The `.highlight-item` elements of a grid, in document order (what
`document.querySelectorAll('.highlight-item')` returns; the placeholder
paragraph is not one of them). -/
def gridItems (grid : List GridChild) : List GridChild :=
  grid.filter (fun c => c matches GridChild.item ..)

/-- The DOM state the three js files read and write.  Visibility of the
four sections is membership of the `hidden` class; numeric displays keep
the raw value whose formatted text the element shows. -/
structure Dom where
  formHidden : Bool
  loadingHidden : Bool
  resultsHidden : Bool
  errorHidden : Bool
  badgeClass : String
  badgeIcon : String
  badgeText : String
  confidenceValue : Rat
  fakeProbValue : Rat
  realProbValue : Rat
  explanationText : String
  explanationTarget : String
  highlightsGrid : List GridChild
  activeTab : Option String
  processingTimeMs : Int
  requestIdShort : String
  requestIdFull : String
  timestampIso : String
  errorMessage : String
  newsTitle : String
  newsText : String
  charCount : String
  runningTimers : List Timer
  nextTimerId : Nat
deriving Repr, DecidableEq

/-- Browser `setInterval`/`setTimeout`: allocates a fresh positive timer id
and registers the timer; returns the new DOM and the id. -/
def startTimer (dom : Dom) (kind : TimerKind) : Dom × Nat :=
  let i := dom.nextTimerId + 1
  ({ dom with runningTimers := dom.runningTimers ++ [⟨i, kind⟩], nextTimerId := i }, i)

/-- Browser `clearInterval`/`clearTimeout`: deregisters the timer with the
given id. -/
def stopTimer (dom : Dom) (i : Nat) : Dom :=
  { dom with runningTimers := dom.runningTimers.filter (fun t => t.id ≠ i) }

/-- `TruthLensUI.escapeHtml` (ui.js lines 324-328): assigning to
`textContent` and reading back `innerHTML` escapes the three
markup-significant characters. -/
def escapeHtml (s : String) : String :=
  s.data.foldl (fun acc c =>
    if c = '&' then acc ++ "&amp;"
    else if c = '<' then acc ++ "&lt;"
    else if c = '>' then acc ++ "&gt;"
    else acc.push c) ""

/-- The instance fields of the `TruthLensUI` class (ui.js lines 6-10 and
36): the constructor sets `currentTab = 'all'` and `currentResults = null`;
`loadingInterval` is unset (falsy) until `showLoading` stores an id. -/
structure TruthLensUI where
  currentTab : String
  currentResults : Option AnalysisResult
  loadingInterval : Option Nat
deriving Repr, DecidableEq

/-- `TruthLensUI.showLoading` (ui.js lines 15-37): hides form, results and
error, shows loading, starts the 30-second message-rotation interval and
stores its id in `this.loadingInterval`. -/
def TruthLensUI.showLoading (ui : TruthLensUI) (dom : Dom) : TruthLensUI × Dom :=
  let dom := { dom with
    formHidden := true, resultsHidden := true, errorHidden := true,
    loadingHidden := false }
  let (dom, i) := startTimer dom .rotation
  ({ ui with loadingInterval := some i }, dom)

/-- `TruthLensUI.hideLoading` (ui.js lines 42-47): when `loadingInterval`
is truthy (browser interval ids are positive), clears the interval and
nulls the field. -/
def TruthLensUI.hideLoading (ui : TruthLensUI) (dom : Dom) : TruthLensUI × Dom :=
  match ui.loadingInterval with
  | some i =>
      if i = 0 then (ui, dom)
      else ({ ui with loadingInterval := none }, stopTimer dom i)
  | none => (ui, dom)

/-- `TruthLensUI.updateResultHeader` (ui.js lines 80-95). -/
def TruthLensUI.updateResultHeader (dom : Dom) (data : AnalysisResult) : Dom :=
  let isFake := data.prediction = "Fake"
  { dom with
    badgeClass := "result-badge " ++ (if isFake then "fake" else "real"),
    badgeIcon := if isFake then "⚠️" else "✅",
    badgeText := if isFake then "Fake News Detected" else "Likely Credible",
    confidenceValue := data.confidence }

/-- `TruthLensUI.updateProbabilityBars` (ui.js lines 100-118): sets both
displayed values and schedules the 100 ms bar-width animation timeout. -/
def TruthLensUI.updateProbabilityBars (dom : Dom) (data : AnalysisResult) : Dom :=
  let dom := { dom with
    fakeProbValue := data.fake_probability,
    realProbValue := data.real_probability }
  (startTimer dom .barDelay).1

/-- `TruthLensUI.updateExplanation` (ui.js lines 123-139): clears the
explanation element and starts the typing-effect interval that will append
one character of `data.explanation` per tick until exhausted. -/
def TruthLensUI.updateExplanation (dom : Dom) (data : AnalysisResult) : Dom :=
  let dom := { dom with explanationText := "", explanationTarget := data.explanation }
  (startTimer dom .typing).1

/-- `TruthLensUI.updateWordHighlights` (ui.js lines 144-179): empties the
grid; with no highlights, renders the single placeholder paragraph;
otherwise renders one item per highlight, its initial visibility gated by
the current tab (`'all'` or a matching direction shows it). -/
def TruthLensUI.updateWordHighlights (ui : TruthLensUI) (dom : Dom)
    (data : AnalysisResult) : Dom :=
  let highlights := data.word_highlights
  { dom with highlightsGrid :=
      if highlights.length = 0 then [.noHighlightsMsg]
      else highlights.map (fun h =>
        .item (escapeHtml h.word) h.direction h.importance
          (if ui.currentTab = "all" ∨ ui.currentTab = h.direction
           then "flex" else "none")) }

/-- `TruthLensUI.updateMetadata` (ui.js lines 214-230): seconds display
keeps the raw milliseconds; the request id is truncated to 13 characters
plus an ellipsis with the full id kept in the `title` attribute; the
timestamp element shows the locale rendering of the ISO string (kept raw
here). -/
def TruthLensUI.updateMetadata (dom : Dom) (data : AnalysisResult) : Dom :=
  { dom with
    processingTimeMs := data.processing_time_ms,
    requestIdShort := (data.request_id.take 13) ++ "...",
    requestIdFull := data.request_id,
    timestampIso := data.timestamp }

/-- `TruthLensUI.showResults` (ui.js lines 52-75): cancels the loading
interval, stores the new result, switches visibility to the results
section, and runs the five update passes in order. -/
def TruthLensUI.showResults (ui : TruthLensUI) (dom : Dom)
    (data : AnalysisResult) : TruthLensUI × Dom :=
  let (ui, dom) := ui.hideLoading dom
  let ui := { ui with currentResults := some data }
  let dom := { dom with
    formHidden := true, loadingHidden := true, errorHidden := true,
    resultsHidden := false }
  let dom := TruthLensUI.updateResultHeader dom data
  let dom := TruthLensUI.updateProbabilityBars dom data
  let dom := TruthLensUI.updateExplanation dom data
  let dom := ui.updateWordHighlights dom data
  let dom := TruthLensUI.updateMetadata dom data
  (ui, dom)

/-- `TruthLensUI.showError` (ui.js lines 235-253): cancels the loading
interval, switches visibility to the error section and sets the message. -/
def TruthLensUI.showError (ui : TruthLensUI) (dom : Dom)
    (message : String) : TruthLensUI × Dom :=
  let (ui, dom) := ui.hideLoading dom
  let dom := { dom with
    formHidden := true, loadingHidden := true, resultsHidden := true,
    errorHidden := false, errorMessage := message }
  (ui, dom)

/-- `TruthLensUI.resetToForm` (ui.js lines 258-278): cancels the loading
interval, shows the form again and clears both fields and the character
count. -/
def TruthLensUI.resetToForm (ui : TruthLensUI) (dom : Dom) : TruthLensUI × Dom :=
  let (ui, dom) := ui.hideLoading dom
  let dom := { dom with
    formHidden := false, loadingHidden := true, resultsHidden := true,
    errorHidden := true,
    newsTitle := "", newsText := "", charCount := "0 / 10,000" }
  (ui, dom)

/-- Loop body of `filterHighlights` (ui.js lines 191-199): one rendered
item's visibility recomputed from the clicked tab, its direction read back
from its class list (`contains('fake')`, anything else counting as
real); the placeholder paragraph is not a `.highlight-item` and is left
alone. -/
def applyTabVisibility (tab : String) : GridChild → GridChild
  | .noHighlightsMsg => .noHighlightsMsg
  | .item w d imp _ =>
      let direction := if d = "fake" then "fake" else "real"
      .item w d imp (if tab = "all" ∨ tab = direction then "flex" else "none")

/-- `TruthLensUI.filterHighlights` (ui.js lines 184-209): records the tab,
then — only when a result is stored — re-derives each rendered item's
direction from its class list (`contains('fake')`, anything else counting
as real), sets its visibility from the tab, and moves the `active` class
to the clicked tab button.  The third component is the list of network
requests issued, which is empty: the function only touches the DOM. -/
def TruthLensUI.filterHighlights (ui : TruthLensUI) (dom : Dom)
    (tab : String) : TruthLensUI × Dom × List (String × String) :=
  let ui := { ui with currentTab := tab }
  match ui.currentResults with
  | none => (ui, dom, [])
  | some _ =>
      let dom := { dom with
        highlightsGrid := dom.highlightsGrid.map (applyTabVisibility tab) }
      let dom := { dom with activeTab := some tab }
      (ui, dom, [])

/-- The instance state of the `TruthLensApp` class: the single
`isAnalyzing` flag guarding concurrent submissions. -/
structure TruthLensApp where
  isAnalyzing : Bool
deriving Repr, DecidableEq

/-- `TruthLensApp.validateInputs` (ui.js lines 474-496): four length rules
checked in order, first failure calling `ui.showError` with its specific
message and returning `false`; all passing returns `true` with nothing
touched. -/
def TruthLensApp.validateInputs (ui : TruthLensUI) (dom : Dom)
    (title text : String) : Bool × TruthLensUI × Dom :=
  if title.length < 5 then
    let (ui, dom) := ui.showError dom "Title must be at least 5 characters long"
    (false, ui, dom)
  else if title.length > 500 then
    let (ui, dom) := ui.showError dom "Title must be less than 500 characters"
    (false, ui, dom)
  else if text.length < 20 then
    let (ui, dom) := ui.showError dom "Article text must be at least 20 characters long"
    (false, ui, dom)
  else if text.length > 10000 then
    let (ui, dom) := ui.showError dom "Article text must be less than 10,000 characters"
    (false, ui, dom)
  else
    (true, ui, dom)

/-- Whitespace as JS `String.prototype.trim` strips it: space, the ASCII
control whitespace, and the no-break space (the further exotic Unicode
space code points never occur in the inputs considered here). -/
def jsWhitespace (c : Char) : Bool :=
  c = ' ' ∨ c = '\t' ∨ c = '\n' ∨ c = '\r' ∨ c = '\x0b' ∨ c = '\x0c' ∨ c = ' '

/-- JS `value.trim()` (ui.js lines 439-440): drops leading and trailing
whitespace. -/
def jsTrim (s : String) : String :=
  String.mk (((s.data.dropWhile jsWhitespace).reverse.dropWhile jsWhitespace).reverse)

/-- The complete effect of one `handleFormSubmit` run: the final app, UI
and DOM states, plus the list of `detectFakeNews` network requests issued
during the run (each recorded as its trimmed title/text pair). -/
structure SubmitResult where
  app : TruthLensApp
  ui : TruthLensUI
  dom : Dom
  networkCalls : List (String × String)
deriving Repr, DecidableEq

/-- `TruthLensApp.handleFormSubmit` (ui.js lines 430-469), run to
completion.  `fetch` is how the single network call would settle if
issued; `renderThrows` is whether rendering the outcome throws an
unexpected exception after its DOM writes (in which case the catch block
shows the generic error message).  The `finally` block clears
`isAnalyzing` on every path that set it. -/
def TruthLensApp.handleFormSubmit (app : TruthLensApp) (ui : TruthLensUI)
    (dom : Dom) (fetch : FetchResult) (renderThrows : Bool) : SubmitResult :=
  if app.isAnalyzing then
    -- console.log('Analysis already in progress'); return
    ⟨app, ui, dom, []⟩
  else
    let title := jsTrim dom.newsTitle
    let text := jsTrim dom.newsText
    match TruthLensApp.validateInputs ui dom title text with
    | (false, ui, dom) => ⟨app, ui, dom, []⟩
    | (true, ui, dom) =>
        let app := { app with isAnalyzing := true }
        let (ui, dom) := ui.showLoading dom
        -- try: await api.detectFakeNews(title, text)
        let outcome := detectFakeNews title text fetch
        let (ui, dom) :=
          match outcome with
          | .success data => ui.showResults dom data
          | .failure err => ui.showError dom err
        -- catch: any unexpected exception falls back to the generic message
        let (ui, dom) :=
          if renderThrows then
            ui.showError dom "An unexpected error occurred. Please try again."
          else (ui, dom)
        -- finally
        let app := { app with isAnalyzing := false }
        ⟨app, ui, dom, [(title, text)]⟩

/-- A DOM in its initial page state: everything but the form hidden-state
as the page loads, empty fields, no timers. -/
def dom0 : Dom where
  formHidden := false
  loadingHidden := true
  resultsHidden := true
  errorHidden := true
  badgeClass := ""
  badgeIcon := ""
  badgeText := ""
  confidenceValue := 0
  fakeProbValue := 0
  realProbValue := 0
  explanationText := ""
  explanationTarget := ""
  highlightsGrid := []
  activeTab := some "all"
  processingTimeMs := 0
  requestIdShort := ""
  requestIdFull := ""
  timestampIso := ""
  errorMessage := ""
  newsTitle := ""
  newsText := ""
  charCount := "0 / 10,000"
  runningTimers := []
  nextTimerId := 0

/-- The freshly constructed `TruthLensUI` instance (ui.js lines 7-10). -/
def ui0 : TruthLensUI where
  currentTab := "all"
  currentResults := none
  loadingInterval := none

/-- A concrete backend response used by the witnesses. -/
def sampleResult : AnalysisResult where
  prediction := "Fake"
  confidence := 82/100
  fake_probability := 82/100
  real_probability := 18/100
  explanation := "The article shows several markers of misinformation."
  word_highlights :=
    [⟨"shocking", 9/10, "fake"⟩, ⟨"miracle", 7/10, "fake"⟩, ⟨"confirmed", 4/10, "real"⟩]
  processing_time_ms := 5300
  request_id := "req-20251011-000042-abcdef"
  timestamp := "2025-10-11T12:00:00Z"

/-! Helper lemmas shared by the claim theorems. -/

/-- The instance-state part of `hideLoading` never touches the tab or the
stored result. -/
theorem hideLoading_preserves_tab_and_results (ui : TruthLensUI) (dom : Dom) :
    (ui.hideLoading dom).1.currentTab = ui.currentTab ∧
    (ui.hideLoading dom).1.currentResults = ui.currentResults := by
  unfold TruthLensUI.hideLoading
  cases h : ui.loadingInterval with
  | none => exact ⟨rfl, rfl⟩
  | some i =>
      by_cases hi : i = 0 <;> simp [hi]

/-- After `showResults`, the current tab is whatever it was before: the
filter is never reset when a new result arrives. -/
theorem showResults_currentTab (ui : TruthLensUI) (dom : Dom) (data : AnalysisResult) :
    (ui.showResults dom data).1.currentTab = ui.currentTab := by
  unfold TruthLensUI.showResults
  cases h : ui.loadingInterval with
  | none => simp [TruthLensUI.hideLoading, h]
  | some i =>
      by_cases hi : i = 0 <;> simp [TruthLensUI.hideLoading, h, hi]

/-- Every highlight item rendered by `showResults` has its initial
visibility gated by the tab that was current when the result arrived. -/
theorem showResults_display_gated (ui : TruthLensUI) (dom : Dom) (data : AnalysisResult) :
    ∀ c ∈ (ui.showResults dom data).2.highlightsGrid,
      c.displayOf = c.directionOf.map (fun d =>
        if ui.currentTab = "all" ∨ ui.currentTab = d then "flex" else "none") := by
  intro c hc
  have htab : ∀ v : TruthLensUI × Dom, v = ui.hideLoading dom →
      v.1.currentTab = ui.currentTab := by
    intro v hv; rw [hv]; exact (hideLoading_preserves_tab_and_results ui dom).1
  unfold TruthLensUI.showResults at hc
  rcases hld : ui.hideLoading dom with ⟨ui', dom'⟩
  rw [hld] at hc
  have htab' : ui'.currentTab = ui.currentTab := by
    have := htab (ui', dom') hld.symm
    simpa using this
  simp only [TruthLensUI.updateMetadata, TruthLensUI.updateWordHighlights,
    TruthLensUI.updateExplanation, TruthLensUI.updateProbabilityBars,
    TruthLensUI.updateResultHeader, startTimer] at hc
  by_cases hlen : data.word_highlights.length = 0
  · simp only [hlen, if_pos, List.mem_singleton] at hc
    subst hc
    rfl
  · simp only [hlen, if_neg, not_false_iff, List.mem_map] at hc
    rcases hc with ⟨h, _, rfl⟩
    simp [GridChild.displayOf, GridChild.directionOf, htab']

/-- Claim C1: a submit event arriving while `isAnalyzing` is true is a
complete no-op — `handleFormSubmit` issues no network call, leaves the
app, UI and DOM states untouched, and neither queues nor errors. -/
theorem submitWhileAnalyzing_noop (app : TruthLensApp) (ui : TruthLensUI)
    (dom : Dom) (fetch : FetchResult) (renderThrows : Bool)
    (h : app.isAnalyzing = true) :
    app.handleFormSubmit ui dom fetch renderThrows = ⟨app, ui, dom, []⟩ := by
  unfold TruthLensApp.handleFormSubmit
  simp [h]

/-- Witness for C1 at a concrete busy state. -/
theorem submitWhileAnalyzing_noop_witness :
    TruthLensApp.handleFormSubmit ⟨true⟩ ui0 dom0 FetchResult.abortError false =
      ⟨⟨true⟩, ui0, dom0, []⟩ :=
  submitWhileAnalyzing_noop ⟨true⟩ ui0 dom0 FetchResult.abortError false rfl

/-- Claim C2: every submit that passes validation issues exactly one
network call and ends with `isAnalyzing` cleared, whatever the transport
outcome and even when rendering the outcome throws unexpectedly. -/
theorem analyzing_cleared_after_submit (app : TruthLensApp) (ui : TruthLensUI)
    (dom : Dom) (fetch : FetchResult) (renderThrows : Bool)
    (h : app.isAnalyzing = false)
    (hv : (TruthLensApp.validateInputs ui dom (jsTrim dom.newsTitle) (jsTrim dom.newsText)).1
            = true) :
    (app.handleFormSubmit ui dom fetch renderThrows).app.isAnalyzing = false ∧
    (app.handleFormSubmit ui dom fetch renderThrows).networkCalls =
      [(jsTrim dom.newsTitle, jsTrim dom.newsText)] := by
  unfold TruthLensApp.handleFormSubmit
  rcases hval : TruthLensApp.validateInputs ui dom (jsTrim dom.newsTitle) (jsTrim dom.newsText)
    with ⟨b, ui', dom'⟩
  rw [hval] at hv
  simp only at hv
  subst hv
  cases hout : detectFakeNews (jsTrim dom.newsTitle) (jsTrim dom.newsText) fetch <;>
    cases renderThrows <;>
      simp [h, hval, hout]

/-- Witness for C2 at a concrete valid form, with the transport timing
out (a failure outcome). -/
theorem analyzing_cleared_after_submit_witness :
    (TruthLensApp.handleFormSubmit ⟨false⟩ ui0
        { dom0 with newsTitle := "  Valid title  ",
                    newsText := "This text is long enough." }
        FetchResult.abortError false).app.isAnalyzing = false :=
  (analyzing_cleared_after_submit ⟨false⟩ ui0
    { dom0 with newsTitle := "  Valid title  ",
                newsText := "This text is long enough." }
    FetchResult.abortError false rfl (by decide)).1

/-- Claim C3: on the trimmed title and text, validation succeeds exactly
when the title length lies in 5..500 and the text length in 20..10000;
otherwise the first failing rule, in the fixed order, reports its
specific message through `showError` and validation returns false. -/
theorem validateInputs_rules (rawTitle rawText : String) (ui : TruthLensUI) (dom : Dom) :
    ((TruthLensApp.validateInputs ui dom (jsTrim rawTitle) (jsTrim rawText)).1 = true ↔
      (5 ≤ (jsTrim rawTitle).length ∧ (jsTrim rawTitle).length ≤ 500 ∧
       20 ≤ (jsTrim rawText).length ∧ (jsTrim rawText).length ≤ 10000)) ∧
    ((jsTrim rawTitle).length < 5 →
      TruthLensApp.validateInputs ui dom (jsTrim rawTitle) (jsTrim rawText) =
        (false, ui.showError dom "Title must be at least 5 characters long")) ∧
    (¬ (jsTrim rawTitle).length < 5 → (jsTrim rawTitle).length > 500 →
      TruthLensApp.validateInputs ui dom (jsTrim rawTitle) (jsTrim rawText) =
        (false, ui.showError dom "Title must be less than 500 characters")) ∧
    (¬ (jsTrim rawTitle).length < 5 → ¬ (jsTrim rawTitle).length > 500 →
      (jsTrim rawText).length < 20 →
      TruthLensApp.validateInputs ui dom (jsTrim rawTitle) (jsTrim rawText) =
        (false, ui.showError dom "Article text must be at least 20 characters long")) ∧
    (¬ (jsTrim rawTitle).length < 5 → ¬ (jsTrim rawTitle).length > 500 →
      ¬ (jsTrim rawText).length < 20 → (jsTrim rawText).length > 10000 →
      TruthLensApp.validateInputs ui dom (jsTrim rawTitle) (jsTrim rawText) =
        (false, ui.showError dom "Article text must be less than 10,000 characters")) := by
  refine ⟨?_, ?_, ?_, ?_, ?_⟩
  · unfold TruthLensApp.validateInputs
    split_ifs with h1 h2 h3 h4 <;> simp <;> omega
  · intro h1
    unfold TruthLensApp.validateInputs
    rw [if_pos h1]
  · intro h1 h2
    unfold TruthLensApp.validateInputs
    rw [if_neg h1, if_pos h2]
  · intro h1 h2 h3
    unfold TruthLensApp.validateInputs
    rw [if_neg h1, if_neg h2, if_pos h3]
  · intro h1 h2 h3 h4
    unfold TruthLensApp.validateInputs
    rw [if_neg h1, if_neg h2, if_neg h3, if_pos h4]

/-- Witness for C3: a too-short trimmed title is rejected with its
specific message, and an in-range pair passes. -/
theorem validateInputs_rules_witness :
    (TruthLensApp.validateInputs ui0 dom0 (jsTrim "  hi  ") (jsTrim "some long enough text!") =
      (false, ui0.showError dom0 "Title must be at least 5 characters long")) ∧
    (TruthLensApp.validateInputs ui0 dom0 (jsTrim "Valid title")
        (jsTrim "This text is long enough.")).1 = true :=
  ⟨(validateInputs_rules "  hi  " "some long enough text!" ui0 dom0).2.1 (by decide),
   (validateInputs_rules "Valid title" "This text is long enough." ui0 dom0).1.mpr
     (by decide)⟩

/-- Claim C4: a transport call whose response does not arrive within the
timeout is aborted and resolves to the failure outcome carrying the
timeout-specific message. -/
theorem timeout_failure_outcome (title text : String) (timeout : Nat)
    (arrivesAt : Option Nat) (ok : Bool) (status : Nat)
    (body : Except String ResponseBody)
    (h : ∀ t, arrivesAt = some t → timeout < t) :
    detectFakeNews title text (resolveFetch timeout arrivesAt ok status body) =
      .failure "Request timed out. The analysis is taking longer than expected." := by
  cases arrivesAt with
  | none => rfl
  | some t =>
      have ht := h t rfl
      simp [resolveFetch, ht, detectFakeNews, makeRequest]

/-- Witness for C4: a response that never arrives, against the default
600000 ms timeout. -/
theorem timeout_failure_outcome_witness :
    detectFakeNews "Valid title" "This text is long enough."
        (resolveFetch 600000 none true 200 (Except.ok ⟨none, sampleResult⟩)) =
      .failure "Request timed out. The analysis is taking longer than expected." :=
  timeout_failure_outcome "Valid title" "This text is long enough." 600000 none true 200
    (Except.ok ⟨none, sampleResult⟩) (fun _ ht => Option.noConfusion ht)

/-- Counterexample to C5: on a non-success status whose body fails to
parse, the outcome carries the parse error's message, not the generic
"HTTP error! status: 500" fallback — `response.json()` throws before the
fallback expression is reached, and the catch block rethrows anything
that is not an AbortError. -/
theorem httpError_fallback_counterexample :
    detectFakeNews "Valid title" "This text is long enough."
        (FetchResult.httpResponse false 500
          (Except.error "Unexpected token < in JSON at position 0")) =
      .failure "Unexpected token < in JSON at position 0" ∧
    "Unexpected token < in JSON at position 0" ≠ "HTTP error! status: 500" := by
  exact ⟨rfl, by decide⟩

/-- Claim C5 as amended: on a non-success HTTP status, the failure
outcome carries the backend's structured message when the body parses
with a truthy `error` string; the generic "HTTP error! status: <code>"
fallback applies when the body parses but its `error` member is absent or
empty; and when parsing the error payload itself fails, the outcome
carries the parse error's message instead. -/
theorem httpError_message_selection (title text : String) (status : Nat)
    (b : ResponseBody) (m e : String) :
    (b.errorField = some e → e ≠ "" →
      detectFakeNews title text (.httpResponse false status (.ok b)) = .failure e) ∧
    ((b.errorField = none ∨ b.errorField = some "") →
      detectFakeNews title text (.httpResponse false status (.ok b)) =
        .failure ("HTTP error! status: " ++ toString status)) ∧
    (detectFakeNews title text (.httpResponse false status (.error m)) = .failure m) := by
  refine ⟨?_, ?_, rfl⟩
  · intro hb he
    simp [detectFakeNews, makeRequest, jsTruthy, hb, he]
  · rintro (hb | hb) <;> simp [detectFakeNews, makeRequest, jsTruthy, hb]

/-- Witness for the amended C5: a structured 503 error body surfaces its
message verbatim. -/
theorem httpError_message_selection_witness :
    detectFakeNews "Valid title" "This text is long enough."
        (.httpResponse false 503 (.ok ⟨some "Model not loaded", sampleResult⟩)) =
      .failure "Model not loaded" :=
  (httpError_message_selection "Valid title" "This text is long enough." 503
    ⟨some "Model not loaded", sampleResult⟩ "" "Model not loaded").1 rfl (by decide)


/-- Claim C6: entering Loading starts the rotation interval, and each of
the three transitions out of Loading — `showResults`, `showError`,
`resetToForm` — cancels it and nulls the stored id, so no rotation timer
runs in any non-Loading state. -/
theorem leaving_loading_cancels_rotation (ui : TruthLensUI) (dom : Dom)
    (data : AnalysisResult) (msg : String)
    (h : ∀ t ∈ dom.runningTimers, t.kind ≠ TimerKind.rotation) :
    (∃ t ∈ (ui.showLoading dom).2.runningTimers, t.kind = TimerKind.rotation) ∧
    (∀ t ∈ ((ui.showLoading dom).1.showResults (ui.showLoading dom).2 data).2.runningTimers,
        t.kind ≠ TimerKind.rotation) ∧
    ((ui.showLoading dom).1.showResults (ui.showLoading dom).2 data).1.loadingInterval
        = none ∧
    (∀ t ∈ ((ui.showLoading dom).1.showError (ui.showLoading dom).2 msg).2.runningTimers,
        t.kind ≠ TimerKind.rotation) ∧
    ((ui.showLoading dom).1.showError (ui.showLoading dom).2 msg).1.loadingInterval
        = none ∧
    (∀ t ∈ ((ui.showLoading dom).1.resetToForm (ui.showLoading dom).2).2.runningTimers,
        t.kind ≠ TimerKind.rotation) ∧
    ((ui.showLoading dom).1.resetToForm (ui.showLoading dom).2).1.loadingInterval
        = none := by
  have hfilter : ∀ t ∈ (dom.runningTimers
      ++ [Timer.mk (dom.nextTimerId + 1) TimerKind.rotation]).filter
      (fun t => t.id ≠ dom.nextTimerId + 1), t.kind ≠ TimerKind.rotation := by
    intro t ht
    rcases List.mem_filter.mp ht with ⟨hmem, hid⟩
    rcases List.mem_append.mp hmem with hold | hnew
    · exact h t hold
    · rw [List.mem_singleton.mp hnew] at hid
      simp at hid
  refine ⟨⟨Timer.mk (dom.nextTimerId + 1) TimerKind.rotation, ?_, rfl⟩,
    ?_, rfl, ?_, rfl, ?_, rfl⟩
  · exact List.mem_append_right _ (List.mem_singleton_self _)
  · intro t ht
    have ht' : t ∈ ((dom.runningTimers
        ++ [Timer.mk (dom.nextTimerId + 1) TimerKind.rotation]).filter
          (fun t => t.id ≠ dom.nextTimerId + 1)
        ++ [Timer.mk (dom.nextTimerId + 1 + 1) TimerKind.barDelay])
        ++ [Timer.mk (dom.nextTimerId + 1 + 1 + 1) TimerKind.typing] := ht
    rcases List.mem_append.mp ht' with hab | htyp
    · rcases List.mem_append.mp hab with hfil | hbar
      · exact hfilter t hfil
      · rw [List.mem_singleton.mp hbar]; simp
    · rw [List.mem_singleton.mp htyp]; simp
  · intro t ht
    exact hfilter t ht
  · intro t ht
    exact hfilter t ht

/-- Witness for C6: from the initial page state, entering Loading and
leaving via `showResults` leaves no rotation timer running. -/
theorem leaving_loading_cancels_rotation_witness :
    (∀ t ∈ ((ui0.showLoading dom0).1.showResults (ui0.showLoading dom0).2
        sampleResult).2.runningTimers, t.kind ≠ TimerKind.rotation) ∧
    ((ui0.showLoading dom0).1.showResults (ui0.showLoading dom0).2
        sampleResult).1.loadingInterval = none :=
  ⟨(leaving_loading_cancels_rotation ui0 dom0 sampleResult "Analysis failed"
      (by simp [dom0])).2.1,
   (leaving_loading_cancels_rotation ui0 dom0 sampleResult "Analysis failed"
      (by simp [dom0])).2.2.1⟩

/-- Importance score of a rendered highlight item, when it is one. -/
def GridChild.importanceOf : GridChild → Option Rat
  | .noHighlightsMsg => none
  | .item _ _ imp _ => some imp

/-- A UI state in which a previous result is displayed and the Fake
filter tab is selected. -/
def uiStaleFakeTab : TruthLensUI where
  currentTab := "fake"
  currentResults := some sampleResult
  loadingInterval := none

/-- A new backend response whose only highlight pushes toward real. -/
def resultRealOnly : AnalysisResult :=
  { sampleResult with word_highlights := [⟨"confirmed", 4/10, "real"⟩] }

/-- Counterexample to C7: showing a new result does not reset the
highlight filter to All — with the Fake tab still selected from the
previous result, `showResults` keeps `currentTab = "fake"` and renders
the new result's single real-direction item hidden, not visible. -/
theorem showResults_filter_reset_counterexample :
    (uiStaleFakeTab.showResults dom0 resultRealOnly).1.currentTab = "fake" ∧
    (uiStaleFakeTab.showResults dom0 resultRealOnly).2.highlightsGrid.map
        (fun c => (c.wordOf, c.directionOf, c.displayOf)) =
      [(some "confirmed", some "real", some "none")] := by
  constructor
  · rfl
  · decide

/-- Claim C7 as amended: the highlight filter is not reset when a new
result is shown — `showResults` leaves the selected tab untouched, and
the freshly rendered items' initial visibility is gated by that
persisting tab (all visible only when it is All or matches). -/
theorem filter_persists_across_results (ui : TruthLensUI) (dom : Dom)
    (data : AnalysisResult) :
    (ui.showResults dom data).1.currentTab = ui.currentTab ∧
    ∀ c ∈ (ui.showResults dom data).2.highlightsGrid,
      c.displayOf = c.directionOf.map (fun d =>
        if ui.currentTab = "all" ∨ ui.currentTab = d then "flex" else "none") :=
  ⟨showResults_currentTab ui dom data, showResults_display_gated ui dom data⟩

/-- Witness for the amended C7 at the stale-Fake-tab state. -/
theorem filter_persists_across_results_witness :
    (uiStaleFakeTab.showResults dom0 resultRealOnly).1.currentTab = "fake" ∧
    ∀ c ∈ (uiStaleFakeTab.showResults dom0 resultRealOnly).2.highlightsGrid,
      c.displayOf = c.directionOf.map (fun d =>
        if uiStaleFakeTab.currentTab = "all" ∨ uiStaleFakeTab.currentTab = d
        then "flex" else "none") :=
  ⟨(filter_persists_across_results uiStaleFakeTab dom0 resultRealOnly).1,
   (filter_persists_across_results uiStaleFakeTab dom0 resultRealOnly).2⟩

/-- Claim C8: with a result stored, `filterHighlights` only re-derives
each rendered item's visibility from its stored direction tag — All
shows every item, Fake/Real exactly the matching ones — while the stored
result, the items' words, directions, importances, their order and
count, are untouched, and no network request is issued. -/
theorem filterHighlights_toggles_visibility (ui : TruthLensUI) (dom : Dom)
    (tab : String)
    (h : ui.currentResults.isSome = true)
    (hdir : ∀ c ∈ gridItems dom.highlightsGrid,
      c.directionOf = some "fake" ∨ c.directionOf = some "real") :
    (ui.filterHighlights dom tab).1.currentResults = ui.currentResults ∧
    (ui.filterHighlights dom tab).1.currentTab = tab ∧
    (ui.filterHighlights dom tab).2.2 = [] ∧
    (ui.filterHighlights dom tab).2.1.highlightsGrid.map GridChild.wordOf =
      dom.highlightsGrid.map GridChild.wordOf ∧
    (ui.filterHighlights dom tab).2.1.highlightsGrid.map GridChild.directionOf =
      dom.highlightsGrid.map GridChild.directionOf ∧
    (ui.filterHighlights dom tab).2.1.highlightsGrid.map GridChild.importanceOf =
      dom.highlightsGrid.map GridChild.importanceOf ∧
    ∀ c ∈ gridItems (ui.filterHighlights dom tab).2.1.highlightsGrid,
      c.displayOf = c.directionOf.map (fun d =>
        if tab = "all" ∨ tab = d then "flex" else "none") := by
  rcases hres : ui.currentResults with _ | r
  · rw [hres] at h; simp at h
  · have hfh : ui.filterHighlights dom tab =
        ({ ui with currentTab := tab },
         { dom with
            highlightsGrid := dom.highlightsGrid.map (applyTabVisibility tab),
            activeTab := some tab },
         []) := by
      simp only [TruthLensUI.filterHighlights, hres]
    rw [hfh]
    have hword : GridChild.wordOf ∘ applyTabVisibility tab = GridChild.wordOf := by
      funext c; cases c <;> rfl
    have hdir2 : GridChild.directionOf ∘ applyTabVisibility tab
        = GridChild.directionOf := by
      funext c; cases c <;> rfl
    have himp : GridChild.importanceOf ∘ applyTabVisibility tab
        = GridChild.importanceOf := by
      funext c; cases c <;> rfl
    refine ⟨?_, ?_, ?_, ?_, ?_, ?_, ?_⟩
    · exact hres
    · rfl
    · rfl
    · rw [List.map_map, hword]
    · rw [List.map_map, hdir2]
    · rw [List.map_map, himp]
    · intro c hc
      simp only [gridItems, List.mem_filter, List.mem_map] at hc
      rcases hc with ⟨⟨c0, hc0, rfl⟩, hitem⟩
      cases c0 with
      | noHighlightsMsg => simp [applyTabVisibility] at hitem
      | item w d imp disp =>
          have hc0' : GridChild.item w d imp disp ∈ gridItems dom.highlightsGrid := by
            simp [gridItems, List.mem_filter, hc0]
          rcases hdir _ hc0' with hd | hd <;>
            simp only [GridChild.directionOf] at hd <;>
            rcases Option.some_injective _ hd with rfl <;>
            simp [applyTabVisibility, GridChild.displayOf, GridChild.directionOf]

/-- A UI state holding the three-highlight sample result. -/
def uiWithResult : TruthLensUI := { ui0 with currentResults := some sampleResult }

/-- The grid rendered for the sample result: three items, two fake and
one real. -/
def domThreeItems : Dom := TruthLensUI.updateWordHighlights ui0 dom0 sampleResult

/-- Witness for C8: selecting the Fake tab over the three rendered items
(two fake, one real) leaves exactly two visible and one hidden. -/
theorem filterHighlights_toggles_visibility_witness :
    (∀ c ∈ gridItems (uiWithResult.filterHighlights domThreeItems "fake").2.1.highlightsGrid,
      c.displayOf = c.directionOf.map (fun d =>
        if "fake" = "all" ∨ "fake" = d then "flex" else "none")) ∧
    ((gridItems (uiWithResult.filterHighlights domThreeItems "fake").2.1.highlightsGrid).filter
        (fun c => c.displayOf = some "flex")).length = 2 ∧
    ((gridItems (uiWithResult.filterHighlights domThreeItems "fake").2.1.highlightsGrid).filter
        (fun c => c.displayOf = some "none")).length = 1 :=
  ⟨(filterHighlights_toggles_visibility uiWithResult domThreeItems "fake" (by decide)
      (by decide)).2.2.2.2.2.2,
   by decide, by decide⟩

/-- Claim C9: an empty `word_highlights` list renders the single
"No word highlights available" placeholder and zero highlight items,
never an empty grid. -/
theorem empty_highlights_placeholder (ui : TruthLensUI) (dom : Dom)
    (data : AnalysisResult) (h : data.word_highlights = []) :
    (ui.updateWordHighlights dom data).highlightsGrid = [GridChild.noHighlightsMsg] ∧
    gridItems (ui.updateWordHighlights dom data).highlightsGrid = [] := by
  simp [TruthLensUI.updateWordHighlights, h, gridItems]

/-- Witness for C9 at a concrete highlight-free response. -/
theorem empty_highlights_placeholder_witness :
    (ui0.updateWordHighlights dom0
        { sampleResult with word_highlights := [] }).highlightsGrid =
      [GridChild.noHighlightsMsg] ∧
    gridItems (ui0.updateWordHighlights dom0
        { sampleResult with word_highlights := [] }).highlightsGrid = [] :=
  empty_highlights_placeholder ui0 dom0 { sampleResult with word_highlights := [] } rfl

/-- Claim C10: clicking a filter tab before any result is stored records
the tab and changes nothing else — the DOM (item visibility and tab
button styling included) is untouched and no request is issued — while
the recorded tab then governs the initial visibility of the next
result's items. -/
theorem filterHighlights_before_results_frame (ui : TruthLensUI) (dom : Dom)
    (tab : String) (h : ui.currentResults = none) :
    (ui.filterHighlights dom tab).1 = { ui with currentTab := tab } ∧
    (ui.filterHighlights dom tab).2.1 = dom ∧
    (ui.filterHighlights dom tab).2.2 = [] ∧
    ∀ data c, c ∈ ((ui.filterHighlights dom tab).1.showResults
        (ui.filterHighlights dom tab).2.1 data).2.highlightsGrid →
      c.displayOf = c.directionOf.map (fun d =>
        if tab = "all" ∨ tab = d then "flex" else "none") := by
  have hfh : ui.filterHighlights dom tab = ({ ui with currentTab := tab }, dom, []) := by
    simp only [TruthLensUI.filterHighlights, h]
  refine ⟨by rw [hfh], by rw [hfh], by rw [hfh], ?_⟩
  intro data c hc
  rw [hfh] at hc
  have hg := showResults_display_gated { ui with currentTab := tab } dom data c hc
  simpa using hg

/-- Witness for C10: selecting the Real tab on the fresh page, then
showing the sample result, gates the items by the recorded tab. -/
theorem filterHighlights_before_results_frame_witness :
    (ui0.filterHighlights dom0 "real").2.1 = dom0 ∧
    ∀ c ∈ ((ui0.filterHighlights dom0 "real").1.showResults
        (ui0.filterHighlights dom0 "real").2.1 sampleResult).2.highlightsGrid,
      c.displayOf = c.directionOf.map (fun d =>
        if "real" = "all" ∨ "real" = d then "flex" else "none") :=
  ⟨(filterHighlights_before_results_frame ui0 dom0 "real" rfl).2.1,
   fun c hc =>
     (filterHighlights_before_results_frame ui0 dom0 "real" rfl).2.2.2 sampleResult c hc⟩
